import Mathlib

/-!
Verification of the Smite tunnel-orchestrator panel against its
natural-language specification.

The definitions below are a shallow embedding of the Python sources under
`panel/` (routers/usage.py, routers/tunnels.py, main.py, app/gost_forwarder.py).
Machine floats of the source are modelled as rationals, Python dicts as
association lists or structures of optional fields, and dict-based object
state as explicit records.  Fallible operations return `Except`/`Option`.
-/

namespace Smite

/-! ## Usage accounting (panel/app/routers/usage.py, `push_usage`) -/

/-- The fields of a persisted `Tunnel` row touched by `push_usage`:
`used_mb` and `quota_mb` are SQL floats (modelled as `ℚ`),
`status` and `error_message` as in the data model. -/
structure UTunnel where
  used_mb : ℚ
  quota_mb : ℚ
  status : String
  error_message : Option String
  deriving Repr, DecidableEq

/-- Embedding of `push_usage` (usage.py lines 28-49): the tunnel's
`used_mb` is incremented by `bytes_used / (1024*1024)` and, when
`quota_mb > 0` and the new `used_mb` reaches it, `status` is set to
`"error"`.  No other field of the row is written. -/
def pushUsage (t : UTunnel) (bytes_used : Int) : UTunnel :=
  let used : ℚ := t.used_mb + (bytes_used : ℚ) / (1024 * 1024)
  { t with
    used_mb := used
    status := if 0 < t.quota_mb ∧ t.quota_mb ≤ used then "error" else t.status }

/-- A sequence of `PushUsage` operations applied to one tunnel. -/
def pushSeq (t : UTunnel) (pushes : List Int) : UTunnel :=
  pushes.foldl pushUsage t

lemma pushUsage_used_mb (t : UTunnel) (b : Int) :
    (pushUsage t b).used_mb = t.used_mb + (b : ℚ) / (1024 * 1024) := rfl

lemma pushUsage_mono_of_nonneg (t : UTunnel) (b : Int) (hb : 0 ≤ b) :
    t.used_mb ≤ (pushUsage t b).used_mb := by
  rw [pushUsage_used_mb]
  have : (0 : ℚ) ≤ (b : ℚ) / (1024 * 1024) := by positivity
  linarith

lemma pushSeq_mono_of_nonneg (pushes : List Int) :
    ∀ t : UTunnel, (∀ x ∈ pushes, (0 : Int) ≤ x) →
      t.used_mb ≤ (pushSeq t pushes).used_mb := by
  induction pushes with
  | nil => intro t _; exact le_refl _
  | cons b rest ih =>
    intro t h
    have h1 : t.used_mb ≤ (pushUsage t b).used_mb :=
      pushUsage_mono_of_nonneg t b (h b (List.mem_cons_self b rest))
    have h2 := ih (pushUsage t b) (fun x hx => h x (List.mem_cons_of_mem b hx))
    calc t.used_mb ≤ (pushUsage t b).used_mb := h1
      _ ≤ (pushSeq (pushUsage t b) rest).used_mb := h2

end Smite

/-! ## Claim C1 -/

/-- C1 (counterexample).  The claim says `used_mb` is non-decreasing across
any sequence of `PushUsage` regardless of the `bytes_used` value carried by
each push, and is updated only from readings ≥ the stored value.  The code
(`tunnel.used_mb += usage_data.bytes_used / (1024 * 1024)`) adds the pushed
delta unconditionally: a push carrying `bytes_used = -2097152` (−2 MiB) on a
tunnel with `used_mb = 1` drops `used_mb` to −1, strictly below the stored
value. -/
theorem push_usage_decreases_on_negative_bytes :
    (Smite.pushUsage ⟨1, 0, "active", none⟩ (-2097152)).used_mb
      < (⟨1, 0, "active", none⟩ : Smite.UTunnel).used_mb := by
  norm_num [Smite.pushUsage]

/-- C1 (amended).  Each `PushUsage` adds exactly `bytes_used / 2²⁰` MB to
`used_mb` (delta accumulation — the code never compares the push against the
previously stored value), and therefore `used_mb` is non-decreasing across
any sequence of pushes all of whose `bytes_used` are non-negative. -/
theorem push_usage_delta_and_monotone (t : Smite.UTunnel) (b : Int)
    (pushes : List Int) (h : ∀ x ∈ pushes, (0 : Int) ≤ x) :
    (Smite.pushUsage t b).used_mb = t.used_mb + (b : ℚ) / (1024 * 1024)
      ∧ t.used_mb ≤ (Smite.pushSeq t pushes).used_mb :=
  ⟨Smite.pushUsage_used_mb t b, Smite.pushSeq_mono_of_nonneg pushes t h⟩

/-- C1 (witness): the amended theorem at the tunnel `⟨0,0,"active",none⟩`,
push `1048576`, sequence `[1048576, 2097152]`. -/
theorem push_usage_delta_and_monotone_witness :
    (Smite.pushUsage ⟨0, 0, "active", none⟩ 1048576).used_mb
        = (0 : ℚ) + (1048576 : ℚ) / (1024 * 1024)
      ∧ (0 : ℚ) ≤ (Smite.pushSeq ⟨0, 0, "active", none⟩ [1048576, 2097152]).used_mb :=
  push_usage_delta_and_monotone ⟨0, 0, "active", none⟩ 1048576 [1048576, 2097152]
    (by intro x hx; fin_cases hx <;> norm_num)

/-! ## Claim C5 -/

/-- C5 (counterexample).  With `quota_mb = 1` a push totalling 1.5 MiB flips
`status` to `"error"` as claimed, but `push_usage` never writes
`error_message`: it stays `none`, not `"quota exceeded"`. -/
theorem push_usage_no_quota_message :
    (Smite.pushUsage ⟨0, 1, "active", none⟩ 1572864).status = "error"
      ∧ (Smite.pushUsage ⟨0, 1, "active", none⟩ 1572864).error_message = none := by
  constructor
  · show (if (0:ℚ) < 1 ∧ (1:ℚ) ≤ 0 + (1572864 : ℚ) / (1024 * 1024) then "error" else "active") = "error"
    rw [if_pos]
    norm_num
  · rfl

/-- C5 (amended).  Whenever `quota_mb > 0` and the post-push `used_mb`
reaches `quota_mb`, `status` is set to `"error"`, but `error_message` is
left unchanged (the code sets no quota message); with `quota_mb = 0` the
status is never changed by `PushUsage`. -/
theorem push_usage_quota_flips_status (t : Smite.UTunnel) (b : Int) :
    (0 < t.quota_mb → t.quota_mb ≤ (Smite.pushUsage t b).used_mb →
        (Smite.pushUsage t b).status = "error")
      ∧ (Smite.pushUsage t b).error_message = t.error_message
      ∧ (t.quota_mb = 0 → (Smite.pushUsage t b).status = t.status) := by
  refine ⟨fun hq hge => ?_, rfl, fun hz => ?_⟩
  · show (if 0 < t.quota_mb ∧ t.quota_mb ≤ _ then "error" else t.status) = "error"
    exact if_pos ⟨hq, hge⟩
  · show (if 0 < t.quota_mb ∧ t.quota_mb ≤ _ then "error" else t.status) = t.status
    rw [if_neg]
    rintro ⟨hlt, -⟩
    rw [hz] at hlt
    exact lt_irrefl 0 hlt

/-- C5 (witness): the amended theorem at `quota_mb = 1`, push of 1.5 MiB
(status flips, message untouched), and at `quota_mb = 0` (status kept). -/
theorem push_usage_quota_flips_status_witness :
    ((0 : ℚ) < 1 → (1 : ℚ) ≤ (Smite.pushUsage ⟨0, 1, "active", none⟩ 1572864).used_mb →
        (Smite.pushUsage ⟨0, 1, "active", none⟩ 1572864).status = "error")
      ∧ (Smite.pushUsage ⟨0, 1, "active", none⟩ 1572864).error_message = none
      ∧ ((1 : ℚ) = 0 → (Smite.pushUsage ⟨0, 1, "active", none⟩ 1572864).status = "active") :=
  push_usage_quota_flips_status ⟨0, 1, "active", none⟩ 1572864

namespace Smite

/-! ## Control-port derivation (panel/app/routers/tunnels.py, `create_tunnel`)

The md5-based value `int(hashlib.md5(tunnel.id.encode()).hexdigest()[:8], 16)`
is treated as an abstract parameter `h : Nat`; every derivation below takes it
as input exactly where the source computes `port_hash`. -/

/-- Python truthiness-based `or` on an optional port: `x or d` falls through
to `d` when `x` is missing or `0`. -/
def pyOrNat (o : Option Nat) (d : Nat) : Nat :=
  match o with
  | some n => if n = 0 then d else n
  | none => d

/-- Split a character list at every `':'` (the separators of `host:port`
addresses). -/
def splitOnColon (cs : List Char) : List (List Char) :=
  match cs with
  | [] => [[]]
  | c :: rest =>
    let r := splitOnColon rest
    if c = ':' then [] :: r
    else
      match r with
      | [] => [[c]]
      | h :: t => (c :: h) :: t

/-- Decimal value of a non-empty all-digit character list. -/
def digitsToNat? (cs : List Char) : Option Nat :=
  if cs.isEmpty then none
  else
    cs.foldl
      (fun acc c =>
        match acc with
        | some a => if c.isDigit then some (a * 10 + (c.toNat - 48)) else none
        | none => none)
      (some 0)

/-- Modelled from the spec: `app.utils.parse_address_port` (the `app/utils.py`
module is not part of the provided sources).  Per §4.2/§4.6 addresses have the
form `host:port` (IPv6 literals bracketed); the function returns the port when
the address carries one and nothing otherwise. -/
def parse_address_port (s : String) : Option Nat :=
  let parts := splitOnColon s.data
  match parts.getLast? with
  | some last => if parts.length ≥ 2 then digitsToNat? last else none
  | none => none

/-- Rathole control port (tunnels.py lines 288-295): the port is parsed from
`spec.remote_addr` with the literal default `"0.0.0.0:23333"`; only when the
parse yields no (or a falsy) port does the hash formula
`23333 + h % 1000` apply. -/
def ratholeControlPort (remote_addr : Option String) (h : Nat) : Nat :=
  match parse_address_port (remote_addr.getD "0.0.0.0:23333") with
  | some p => if p = 0 then 23333 + h % 1000 else p
  | none => 23333 + h % 1000

/-- Chisel control port (tunnels.py line 353):
`spec.control_port or (first_port + 10000 + h % 1000)`. -/
def chiselControlPort (control_port : Option Nat) (firstPort h : Nat) : Nat :=
  pyOrNat control_port (firstPort + 10000 + h % 1000)

/-- FRP bind port (tunnels.py line 373): `spec.bind_port or (7000 + h % 1000)`. -/
def frpBindPort (bind_port : Option Nat) (h : Nat) : Nat :=
  pyOrNat bind_port (7000 + h % 1000)

/-- Backhaul control port (tunnels.py line 415):
`spec.control_port or spec.listen_port or (3080 + h % 1000)`. -/
def backhaulControlPort (control_port listen_port : Option Nat) (h : Nat) : Nat :=
  pyOrNat control_port (pyOrNat listen_port (3080 + h % 1000))

end Smite

/-! ## Claim C3 -/

/-- C3 (counterexample).  The claim says a rathole tunnel with no user
control-port override gets port `23333 + H(id) mod 1000`.  In the code the
rathole port is parsed from `spec.remote_addr`, whose default is the literal
`"0.0.0.0:23333"`: with no override the port is always `23333`, so for a
tunnel id whose hash satisfies `H mod 1000 = 7` the code's `23333` differs
from the claimed `23333 + 7`. -/
theorem rathole_default_port_is_constant :
    Smite.ratholeControlPort none 7 = 23333 ∧ (23333 : Nat) ≠ 23333 + 7 % 1000 := by
  constructor
  · decide
  · decide

/-- C3 (amended).  For chisel, frp and backhaul the no-override control port
is `base + h % 1000` with `base[chisel] = first_port + 10000`,
`base[frp] = 7000`, `base[backhaul] = 3080`, and a user-supplied (non-zero)
port is used verbatim.  For rathole the port is parsed from `spec.remote_addr`
(default `"0.0.0.0:23333"`): with no override it is the constant `23333`, and
the hash formula `23333 + h % 1000` applies exactly when the supplied
`remote_addr` carries no port; in both rathole cases the chosen port lies in
`[23333, 24332]`. -/
theorem control_port_derivation (h fp o lp : Nat) (ho : o ≠ 0) :
    Smite.chiselControlPort none fp h = fp + 10000 + h % 1000
      ∧ Smite.frpBindPort none h = 7000 + h % 1000
      ∧ Smite.backhaulControlPort none none h = 3080 + h % 1000
      ∧ Smite.ratholeControlPort none h = 23333
      ∧ Smite.ratholeControlPort (some "0.0.0.0") h = 23333 + h % 1000
      ∧ 23333 ≤ Smite.ratholeControlPort none h
      ∧ Smite.ratholeControlPort none h ≤ 24332
      ∧ 23333 ≤ Smite.ratholeControlPort (some "0.0.0.0") h
      ∧ Smite.ratholeControlPort (some "0.0.0.0") h ≤ 24332
      ∧ Smite.chiselControlPort (some o) fp h = o
      ∧ Smite.frpBindPort (some o) h = o
      ∧ Smite.backhaulControlPort (some o) (some lp) h = o := by
  have hmod : h % 1000 < 1000 := Nat.mod_lt h (by norm_num)
  have hp1 : Smite.parse_address_port "0.0.0.0:23333" = some 23333 := by decide
  have hp2 : Smite.parse_address_port "0.0.0.0" = none := by decide
  have hnone : Smite.ratholeControlPort none h = 23333 := by
    simp [Smite.ratholeControlPort, hp1]
  have hnoport : Smite.ratholeControlPort (some "0.0.0.0") h = 23333 + h % 1000 := by
    simp [Smite.ratholeControlPort, hp2]
  refine ⟨rfl, rfl, rfl, hnone, hnoport, ?_, ?_, ?_, ?_, ?_, ?_, ?_⟩
  · rw [hnone]
  · rw [hnone]; omega
  · rw [hnoport]; omega
  · rw [hnoport]; omega
  · simp [Smite.chiselControlPort, Smite.pyOrNat, ho]
  · simp [Smite.frpBindPort, Smite.pyOrNat, ho]
  · simp [Smite.backhaulControlPort, Smite.pyOrNat, ho]

/-- C3 (witness): the amended theorem at `h = 7`, first port `8443`,
override `9999`, listen port `5`. -/
theorem control_port_derivation_witness :
    Smite.chiselControlPort none 8443 7 = 8443 + 10000 + 7 % 1000
      ∧ Smite.frpBindPort none 7 = 7000 + 7 % 1000
      ∧ Smite.backhaulControlPort none none 7 = 3080 + 7 % 1000
      ∧ Smite.ratholeControlPort none 7 = 23333
      ∧ Smite.ratholeControlPort (some "0.0.0.0") 7 = 23333 + 7 % 1000
      ∧ 23333 ≤ Smite.ratholeControlPort none 7
      ∧ Smite.ratholeControlPort none 7 ≤ 24332
      ∧ 23333 ≤ Smite.ratholeControlPort (some "0.0.0.0") 7
      ∧ Smite.ratholeControlPort (some "0.0.0.0") 7 ≤ 24332
      ∧ Smite.chiselControlPort (some 9999) 8443 7 = 9999
      ∧ Smite.frpBindPort (some 9999) 7 = 9999
      ∧ Smite.backhaulControlPort (some 9999) (some 5) 7 = 9999 :=
  control_port_derivation 7 8443 9999 5 (by decide)

namespace Smite

/-! ## Two-sided apply (tunnels.py, `create_tunnel` lines 523-587) -/

/-- A node RPC response `{status, message?}` (§4.6 wire contract). -/
structure RpcResponse where
  status : String
  message : Option String
  deriving Repr, DecidableEq

/-- The observable outcome of the reverse-core create path after both node
RPCs: the persisted tunnel status and error message, whether a compensating
`remove` RPC was attempted on the iran node, and whether the row was
deleted. -/
structure TwoSidedOutcome where
  status : String
  error_message : Option String
  removeSentToIran : Bool
  rowDeleted : Bool
  deriving Repr, DecidableEq

/-- Embedding of the two-sided apply tail of `create_tunnel`: the iran-side
(server) response is checked first; on a foreign-side (client) error the code
sets `status="error"`, records a `Foreign node error:` message, sends a
best-effort `remove` to the iran node, and returns the row (never deletes
it); only double success yields `status="active"`. -/
def applyTwoSided (serverResp clientResp : RpcResponse) : TwoSidedOutcome :=
  if serverResp.status = "error" then
    { status := "error"
      error_message :=
        some ("Iran node error: " ++ serverResp.message.getD "Unknown error from iran node")
      removeSentToIran := false
      rowDeleted := false }
  else if clientResp.status = "error" then
    { status := "error"
      error_message :=
        some ("Foreign node error: " ++ clientResp.message.getD "Unknown error from foreign node")
      removeSentToIran := true
      rowDeleted := false }
  else if serverResp.status = "success" ∧ clientResp.status = "success" then
    { status := "active", error_message := none
      removeSentToIran := false, rowDeleted := false }
  else
    { status := "error"
      error_message := some "Failed to apply tunnel to one or both nodes"
      removeSentToIran := false
      rowDeleted := false }

end Smite

/-! ## Claim C4 -/

/-- C4.  For every two-sided create in which the iran-side apply succeeds and
the foreign-side apply fails, the panel attempts a best-effort `remove` RPC
on the iran node, persists the tunnel with `status="error"` and a
`Foreign node error:` message, and returns the row rather than deleting
it. -/
theorem two_sided_apply_compensates (s c : Smite.RpcResponse)
    (hs : s.status = "success") (hc : c.status = "error") :
    (Smite.applyTwoSided s c).removeSentToIran = true
      ∧ (Smite.applyTwoSided s c).status = "error"
      ∧ (Smite.applyTwoSided s c).error_message
          = some ("Foreign node error: " ++ c.message.getD "Unknown error from foreign node")
      ∧ (Smite.applyTwoSided s c).rowDeleted = false := by
  have hsne : ¬ s.status = "error" := by rw [hs]; decide
  simp [Smite.applyTwoSided, hsne, hc]

/-- C4 (witness): the theorem at the server response `success` and client
response `error`/`"connect refused"`. -/
theorem two_sided_apply_compensates_witness :
    (Smite.applyTwoSided ⟨"success", none⟩ ⟨"error", some "connect refused"⟩).removeSentToIran = true
      ∧ (Smite.applyTwoSided ⟨"success", none⟩ ⟨"error", some "connect refused"⟩).status = "error"
      ∧ (Smite.applyTwoSided ⟨"success", none⟩ ⟨"error", some "connect refused"⟩).error_message
          = some ("Foreign node error: " ++ (some "connect refused").getD "Unknown error from foreign node")
      ∧ (Smite.applyTwoSided ⟨"success", none⟩ ⟨"error", some "connect refused"⟩).rowDeleted = false :=
  two_sided_apply_compensates ⟨"success", none⟩ ⟨"error", some "connect refused"⟩ rfl rfl

namespace Smite

/-! ## Node resolution for reverse cores (tunnels.py, `create_tunnel` lines 157-210) -/

/-- A registered node as the resolution logic sees it: its id and
`metadata.get("role")`. -/
structure RNode where
  id : String
  role : Option String
  deriving Repr, DecidableEq

/-- The error kinds the resolution step raises: HTTP 404 (`not_found`)
and HTTP 400 (`validation`). -/
inductive ResolveError where
  | notFound (msg : String)
  | validation (msg : String)
  deriving Repr, DecidableEq

/-- `db.execute(select(Node).where(Node.id == nid))` on the node table. -/
def findNode (db : List RNode) (nid : String) : Option RNode :=
  db.find? (fun n => n.id == nid)

/-- `[n for n in all_nodes if n.node_metadata.get("role") == r][0]` —
the first node in table order carrying the given role. -/
def firstWithRole (db : List RNode) (r : String) : Option RNode :=
  db.find? (fun n => n.role == some r)

/-- The final guard (line 207): both nodes must have been resolved.  The
source interpolates the core name into the message; the message is kept
constant here. -/
def requireBoth (foreign iran : Option RNode) : Except ResolveError (RNode × RNode) :=
  match foreign, iran with
  | some f, some i => .ok (i, f)
  | _, _ => .error (.validation "Both foreign and iran nodes are required")

/-- Resolution of an explicitly supplied `foreign_node_id` /
`iran_node_id`: 404 when the id is unknown, 400 when the node's role does
not match `want`. -/
def lookupWithRole (db : List RNode) (nid want : String) :
    Except ResolveError RNode :=
  match findNode db nid with
  | none => .error (.notFound ("Node " ++ nid ++ " not found"))
  | some n =>
    if n.role = some want then .ok n
    else .error (.validation ("Node " ++ nid ++ " is not a " ++ want ++ " node"))

/-- Embedding of the reverse-core node-resolution of `create_tunnel`
(lines 161-210).  Explicit `foreign_node_id`/`iran_node_id` are checked
first; when a bare `node_id` is supplied and the pair is not yet complete,
the provided node (role defaulting to `"iran"`) is taken for its own role
and the FIRST node of the complementary role in the table is auto-selected,
failing with a validation error only when none exists.  The result pair is
`(iran, foreign)`. -/
def resolveNodes (db : List RNode) (foreign_id iran_id node_id : Option String) :
    Except ResolveError (RNode × RNode) :=
  let fRes : Except ResolveError (Option RNode) :=
    match foreign_id with
    | none => .ok none
    | some fid => (lookupWithRole db fid "foreign").map some
  match fRes with
  | .error e => .error e
  | .ok foreign0 =>
    let iRes : Except ResolveError (Option RNode) :=
      match iran_id with
      | none => .ok none
      | some iid => (lookupWithRole db iid "iran").map some
    match iRes with
    | .error e => .error e
    | .ok iran0 =>
      match node_id with
      | none => requireBoth foreign0 iran0
      | some nid =>
        if foreign0.isSome ∧ iran0.isSome then requireBoth foreign0 iran0
        else
          match findNode db nid with
          | none => .error (.notFound "Node not found")
          | some p =>
            if p.role.getD "iran" = "foreign" then
              match firstWithRole db "iran" with
              | some i => requireBoth (some p) (some i)
              | none => .error (.validation "No iran node found. Please specify iran_node_id or register an iran node.")
            else
              match firstWithRole db "foreign" with
              | some f => requireBoth (some f) (some p)
              | none => .error (.validation "No foreign node found. Please specify foreign_node_id or register a foreign node.")

end Smite

/-! ## Claim C8 -/

/-- C8 (counterexample).  The claim says a reverse-core create carrying only
`node_id` is rejected with a validation error.  With the node table
`[A(iran), B(foreign)]` the request `node_id = "A"` is accepted: the code
auto-selects the first foreign node `B` and resolution returns the pair
`(A, B)` instead of an error. -/
theorem node_id_only_is_autoselected :
    Smite.resolveNodes [⟨"A", some "iran"⟩, ⟨"B", some "foreign"⟩] none none (some "A")
      = .ok (⟨"A", some "iran"⟩, ⟨"B", some "foreign"⟩) := rfl

/-- C8 (amended).  When only `node_id` is supplied for a reverse core, the
code does NOT reject: it resolves the provided node (role defaulting to
`iran`), auto-selects the first node of the complementary role from the
table, and fails with a validation error only when no complementary-role
node exists; a request that supplies no node at all, or whose resolvable
node set lacks a foreign-role node, fails with a validation error. -/
theorem resolve_nodes_autoselect (db : List Smite.RNode) (nid : String) (n : Smite.RNode)
    (hn : Smite.findNode db nid = some n)
    (hrole : ¬ n.role.getD "iran" = "foreign") :
    (∀ f, Smite.firstWithRole db "foreign" = some f →
        Smite.resolveNodes db none none (some nid) = .ok (n, f))
      ∧ (Smite.firstWithRole db "foreign" = none →
          ∃ m, Smite.resolveNodes db none none (some nid)
              = .error (.validation m))
      ∧ ∃ m, Smite.resolveNodes db none none none = .error (.validation m) := by
  refine ⟨fun f hf => ?_, fun hnone => ?_, ?_⟩
  · simp [Smite.resolveNodes, hn, hrole, hf, Smite.requireBoth]
  · exact ⟨"No foreign node found. Please specify foreign_node_id or register a foreign node.",
      by simp [Smite.resolveNodes, hn, hrole, hnone]⟩
  · exact ⟨_, rfl⟩

/-- C8 (witness): the amended theorem at the table `[A(iran), B(foreign)]`
and the request `node_id = "A"`. -/
theorem resolve_nodes_autoselect_witness :
    (∀ f, Smite.firstWithRole [⟨"A", some "iran"⟩, ⟨"B", some "foreign"⟩] "foreign" = some f →
        Smite.resolveNodes [⟨"A", some "iran"⟩, ⟨"B", some "foreign"⟩] none none (some "A")
          = .ok (⟨"A", some "iran"⟩, f))
      ∧ (Smite.firstWithRole [⟨"A", some "iran"⟩, ⟨"B", some "foreign"⟩] "foreign" = none →
          ∃ m, Smite.resolveNodes [⟨"A", some "iran"⟩, ⟨"B", some "foreign"⟩] none none (some "A")
              = .error (.validation m))
      ∧ ∃ m, Smite.resolveNodes [⟨"A", some "iran"⟩, ⟨"B", some "foreign"⟩] none none none
          = .error (.validation m) :=
  resolve_nodes_autoselect [⟨"A", some "iran"⟩, ⟨"B", some "foreign"⟩] "A"
    ⟨"A", some "iran"⟩ rfl (by decide)

namespace Smite

/-! ## Tunnel update (tunnels.py, `update_tunnel` lines 1095-1325) -/

/-- An action the re-apply branch of `update_tunnel` may perform on
panel-local engines or nodes. -/
inductive EngineAction where
  | stopForward
  | startForward
  | stopServer (core : String)
  | startServer (core : String)
  | nodeApply (node_id : String)
  deriving Repr, DecidableEq

/-- The `Tunnel` row fields read or written by `update_tunnel`; the spec
payload is kept abstract (`σ`, any type with decidable equality, standing
for the JSON dict). -/
structure UpdTunnel (σ : Type) where
  name : String
  spec : σ
  status : String
  error_message : Option String
  revision : Nat
  updated_at : Nat
  used_mb : ℚ
  quota_mb : ℚ

/-- An `UpdateTunnel` patch: optional new name, optional new spec. -/
structure UpdPatch (σ : Type) where
  name : Option String
  spec : Option σ

/-- `spec_changed = tunnel_update.spec is not None and tunnel_update.spec != tunnel.spec`
(tunnels.py line 1110). -/
def specChanged {σ : Type} [DecidableEq σ] (t : UpdTunnel σ) (p : UpdPatch σ) : Bool :=
  match p.spec with
  | none => false
  | some s => s ≠ t.spec

/-- The unconditional persist step (lines 1112-1128): assign the patched
name and spec, bump `revision` by one, stamp `updated_at`. -/
def applyPatch {σ : Type} (t : UpdTunnel σ) (p : UpdPatch σ) (now : Nat) : UpdTunnel σ :=
  { t with
    name := p.name.getD t.name
    spec := p.spec.getD t.spec
    revision := t.revision + 1
    updated_at := now }

/-- Embedding of `update_tunnel`: persist the patch, then run the re-apply
branch (lines 1130-1323) ONLY when the spec changed.  The re-apply branch
is passed in as `reapply` (it stops/restarts panel-local engines and sends
node RPCs, returning the further-mutated row and its action trace); the
guard makes it unreachable for name-only patches, whatever it does. -/
def updateTunnel {σ : Type} [DecidableEq σ]
    (reapply : UpdTunnel σ → UpdTunnel σ × List EngineAction)
    (t : UpdTunnel σ) (p : UpdPatch σ) (now : Nat) :
    UpdTunnel σ × List EngineAction :=
  let t1 := applyPatch t p now
  if specChanged t p then reapply t1 else (t1, [])

end Smite

/-! ## Claim C9 -/

/-- C9.  For every `UpdateTunnel` whose patch changes only the name (spec
absent, or equal to the stored spec), no re-apply happens: whatever the
re-apply branch would do, no engine action is emitted and no node RPC is
sent; the row keeps its spec, status, error message and usage, and only
name, revision (incremented by exactly one) and `updated_at` change. -/
theorem update_name_only_no_reapply {σ : Type} [DecidableEq σ]
    (reapply : Smite.UpdTunnel σ → Smite.UpdTunnel σ × List Smite.EngineAction)
    (t : Smite.UpdTunnel σ) (p : Smite.UpdPatch σ) (now : Nat)
    (h : p.spec = none ∨ p.spec = some t.spec) :
    (Smite.updateTunnel reapply t p now).2 = []
      ∧ (Smite.updateTunnel reapply t p now).1.name = p.name.getD t.name
      ∧ (Smite.updateTunnel reapply t p now).1.revision = t.revision + 1
      ∧ (Smite.updateTunnel reapply t p now).1.updated_at = now
      ∧ (Smite.updateTunnel reapply t p now).1.spec = t.spec
      ∧ (Smite.updateTunnel reapply t p now).1.status = t.status
      ∧ (Smite.updateTunnel reapply t p now).1.error_message = t.error_message
      ∧ (Smite.updateTunnel reapply t p now).1.used_mb = t.used_mb
      ∧ (Smite.updateTunnel reapply t p now).1.quota_mb = t.quota_mb := by
  have hsc : Smite.specChanged t p = false := by
    rcases h with h | h <;> simp [Smite.specChanged, h]
  simp [Smite.updateTunnel, hsc, Smite.applyPatch]
  rcases h with h | h <;> simp [h]

/-- C9 (witness): the theorem at a concrete tunnel (spec type `Nat`) and the
name-only patch `{name := "renamed"}`. -/
theorem update_name_only_no_reapply_witness :
    (Smite.updateTunnel (fun t => (t, [Smite.EngineAction.stopForward]))
        (⟨"old", 5, "active", none, 3, 100, 0, 0⟩ : Smite.UpdTunnel Nat)
        ⟨some "renamed", none⟩ 200).2 = []
      ∧ (Smite.updateTunnel (fun t => (t, [Smite.EngineAction.stopForward]))
          (⟨"old", 5, "active", none, 3, 100, 0, 0⟩ : Smite.UpdTunnel Nat)
          ⟨some "renamed", none⟩ 200).1.name = (some "renamed").getD "old"
      ∧ (Smite.updateTunnel (fun t => (t, [Smite.EngineAction.stopForward]))
          (⟨"old", 5, "active", none, 3, 100, 0, 0⟩ : Smite.UpdTunnel Nat)
          ⟨some "renamed", none⟩ 200).1.revision = 3 + 1
      ∧ (Smite.updateTunnel (fun t => (t, [Smite.EngineAction.stopForward]))
          (⟨"old", 5, "active", none, 3, 100, 0, 0⟩ : Smite.UpdTunnel Nat)
          ⟨some "renamed", none⟩ 200).1.updated_at = 200
      ∧ (Smite.updateTunnel (fun t => (t, [Smite.EngineAction.stopForward]))
          (⟨"old", 5, "active", none, 3, 100, 0, 0⟩ : Smite.UpdTunnel Nat)
          ⟨some "renamed", none⟩ 200).1.spec = 5
      ∧ (Smite.updateTunnel (fun t => (t, [Smite.EngineAction.stopForward]))
          (⟨"old", 5, "active", none, 3, 100, 0, 0⟩ : Smite.UpdTunnel Nat)
          ⟨some "renamed", none⟩ 200).1.status = "active"
      ∧ (Smite.updateTunnel (fun t => (t, [Smite.EngineAction.stopForward]))
          (⟨"old", 5, "active", none, 3, 100, 0, 0⟩ : Smite.UpdTunnel Nat)
          ⟨some "renamed", none⟩ 200).1.error_message = none
      ∧ (Smite.updateTunnel (fun t => (t, [Smite.EngineAction.stopForward]))
          (⟨"old", 5, "active", none, 3, 100, 0, 0⟩ : Smite.UpdTunnel Nat)
          ⟨some "renamed", none⟩ 200).1.used_mb = 0
      ∧ (Smite.updateTunnel (fun t => (t, [Smite.EngineAction.stopForward]))
          (⟨"old", 5, "active", none, 3, 100, 0, 0⟩ : Smite.UpdTunnel Nat)
          ⟨some "renamed", none⟩ 200).1.quota_mb = 0 :=
  update_name_only_no_reapply (fun t => (t, [Smite.EngineAction.stopForward]))
    ⟨"old", 5, "active", none, 3, 100, 0, 0⟩ ⟨some "renamed", none⟩ 200 (Or.inl rfl)

namespace Smite

/-! ## Backhaul port normalization (tunnels.py, `create_tunnel` lines 443-497) -/

/-- A raw entry of a backhaul `spec.ports` list as received from the
frontend: a JSON number, a string, a mapping with `local`/`listen_port`/
`public_port`, `target_host`, `target_port`/`remote_port` keys, or some
other value (hit by the `str(p)` fallback, carried here as its string
form). -/
inductive BPort where
  | pint (n : Int)
  | pstr (s : String)
  | pdict (localPort listen_port public_port : Option Nat)
      (target_host : Option String) (target_port remote_port : Option Nat)
  | pother (repr : String)
  deriving Repr, DecidableEq

/-- Python truthiness of a raw port entry (`if not p: continue`): the
number `0`, the empty string and the empty mapping are falsy. -/
def BPort.isTruthy : BPort → Bool
  | .pint n => n ≠ 0
  | .pstr s => ¬ s.data.isEmpty
  | .pdict l lp pp th tp rp =>
      l.isSome || lp.isSome || pp.isSome || th.isSome || tp.isSome || rp.isSome
  | .pother r => ¬ r.data.isEmpty

/-- Python truthiness-based `or` on optional strings (empty string falsy). -/
def pyOrStr (o : Option String) (d : String) : String :=
  match o with
  | some s => if s.data.isEmpty then d else s
  | none => d

/-- Python `str.isdigit()`. -/
def pyIsDigit (s : String) : Bool :=
  ¬ s.data.isEmpty && s.data.all Char.isDigit

/-- Python `'=' in s`. -/
def pyContainsEq (s : String) : Bool :=
  s.data.contains '='

/-- The normalized form `"<listen_port>=<target_host>:<target_port>"`. -/
def mkPortMapping (listen : String) (host : String) (target : String) : String :=
  listen ++ "=" ++ host ++ ":" ++ target

/-- Normalization of one truthy backhaul port entry (the loop body of
lines 448-474); `th` is `server_spec.get("target_host", "127.0.0.1")`.
Strings containing `'='` and non-digit strings pass through as-is; bare
numbers and digit strings become `"p=<th>:p"`; mappings with a truthy
local port are converted from their fields, and ones without are skipped
(`none`). -/
def normalizeBPort (th : String) : BPort → Option String
  | .pint n => some (mkPortMapping (toString n) th (toString n))
  | .pstr s =>
      if pyContainsEq s then some s
      else if pyIsDigit s then some (mkPortMapping s th s)
      else some s
  | .pdict l lp pp thost tp rp =>
      match pyOrNat l (pyOrNat lp (pyOrNat pp 0)) with
      | 0 => none
      | Nat.succ k =>
        let localPort := Nat.succ k
        let tgtHost := pyOrStr thost th
        let tgtPort := pyOrNat tp (pyOrNat rp localPort)
        some (mkPortMapping (toString localPort) tgtHost (toString tgtPort))
  | .pother r => some r

/-- The full `processed_ports` computation: falsy entries are skipped, the
rest normalized. -/
def processBackhaulPorts (th : String) (ports : List BPort) : List String :=
  ports.filterMap (fun p => if p.isTruthy then normalizeBPort th p else none)

/-- The write-back (lines 483 and 488-496): the processed list is stored
both into the server spec handed to the adapter (`server_spec["ports"]`)
and into the persisted row (`db_tunnel.spec["ports"]`, with
`flag_modified` + commit).  Returns `(persisted ports, adapter ports)`. -/
def backhaulPortsWriteBack (th : String) (ports : List BPort) :
    List String × List String :=
  let processed := processBackhaulPorts th ports
  (processed, processed)

end Smite

/-! ## Claim C6 -/

/-- C6 (counterexample).  The claim says every entry of the normalized list
has the shape `"<listen_port>=<target_host>:<target_port>"`.  A string
entry that is neither a digit string nor contains `'='` is passed through
as-is (`"Some other string format - use as-is"`): `["foo"]` normalizes to
`["foo"]`, which contains no `'='` and hence is not of that shape. -/
theorem backhaul_ports_passthrough :
    Smite.processBackhaulPorts "127.0.0.1" [Smite.BPort.pstr "foo"] = ["foo"]
      ∧ Smite.pyContainsEq "foo" = false := by
  constructor
  · rfl
  · decide

/-- C6 (amended).  Entries that are non-zero numbers, digit strings, or
mappings carrying a truthy local port are normalized to
`"<listen_port>=<target_host>:<target_port>"` (with `target_host`
defaulting as supplied, `127.0.0.1` at the call site); strings already
containing `'='` and all other strings pass through unchanged; and the
processed list is written back to the persisted tunnel spec and equals the
list the adapter receives (round-trip). -/
theorem backhaul_ports_normalization (th s : String) (n : Int)
    (l tp : Nat) (thost : Option String) (ports : List Smite.BPort)
    (_hn : n ≠ 0) (hs : Smite.pyIsDigit s = true) (hl : l ≠ 0) :
    Smite.normalizeBPort th (Smite.BPort.pint n)
        = some (Smite.mkPortMapping (toString n) th (toString n))
      ∧ Smite.normalizeBPort th (Smite.BPort.pstr s)
          = (if Smite.pyContainsEq s then some s
             else some (Smite.mkPortMapping s th s))
      ∧ Smite.normalizeBPort th
            (Smite.BPort.pdict (some l) none none thost (some tp.succ) none)
          = some (Smite.mkPortMapping (toString l) (Smite.pyOrStr thost th)
              (toString tp.succ))
      ∧ Smite.backhaulPortsWriteBack th ports
          = (Smite.processBackhaulPorts th ports, Smite.processBackhaulPorts th ports) := by
  refine ⟨rfl, ?_, ?_, rfl⟩
  · by_cases he : Smite.pyContainsEq s
    · simp [Smite.normalizeBPort, he]
    · simp [Smite.normalizeBPort, he, hs]
  · have : Smite.pyOrNat (some l) (Smite.pyOrNat none (Smite.pyOrNat none 0)) = l := by
      simp [Smite.pyOrNat, hl]
    rcases Nat.exists_eq_succ_of_ne_zero hl with ⟨k, hk⟩
    subst hk
    simp [Smite.normalizeBPort, Smite.pyOrNat]

/-- C6 (witness): the amended theorem at `target_host = "127.0.0.1"`,
digit string `"9001"`, number `9000`, a mapping `{local: 8080,
target_port: 8443}`, and the port list of scenario 2. -/
theorem backhaul_ports_normalization_witness :
    Smite.normalizeBPort "127.0.0.1" (Smite.BPort.pint 9000)
        = some (Smite.mkPortMapping (toString (9000 : Int)) "127.0.0.1" (toString (9000 : Int)))
      ∧ Smite.normalizeBPort "127.0.0.1" (Smite.BPort.pstr "9001")
          = (if Smite.pyContainsEq "9001" then some "9001"
             else some (Smite.mkPortMapping "9001" "127.0.0.1" "9001"))
      ∧ Smite.normalizeBPort "127.0.0.1"
            (Smite.BPort.pdict (some 8080) none none none (some (Nat.succ 8442)) none)
          = some (Smite.mkPortMapping (toString (8080 : Nat)) (Smite.pyOrStr none "127.0.0.1")
              (toString (Nat.succ 8442)))
      ∧ Smite.backhaulPortsWriteBack "127.0.0.1"
            [Smite.BPort.pstr "9000=127.0.0.1:9000", Smite.BPort.pstr "9001"]
          = (Smite.processBackhaulPorts "127.0.0.1"
                [Smite.BPort.pstr "9000=127.0.0.1:9000", Smite.BPort.pstr "9001"],
             Smite.processBackhaulPorts "127.0.0.1"
                [Smite.BPort.pstr "9000=127.0.0.1:9000", Smite.BPort.pstr "9001"]) :=
  backhaul_ports_normalization "127.0.0.1" "9001" 9000 8080 8442 none
    [Smite.BPort.pstr "9000=127.0.0.1:9000", Smite.BPort.pstr "9001"]
    (by decide) (by decide) (by decide)

namespace Smite

/-! ## Startup restoration (panel/main.py, `_restore_forwards`,
`_restore_rathole_servers`, `_restore_backhaul_servers`,
`_restore_chisel_servers`, `_restore_node_tunnels`) -/

/-- A persisted `Tunnel` row as the restoration loops read it. -/
structure RTunnel where
  id : String
  core : String
  type : String
  status : String
  node_id : String
  deriving Repr, DecidableEq

/-- `_restore_forwards` (main.py lines 86-128): the gost forwarder is
re-started for active tunnels whose type is in the forwarding set AND whose
core equals the literal `"xray"`. -/
def restoreForwardTargets (db : List RTunnel) : List String :=
  (db.filter (fun t =>
    t.status == "active"
      && (t.type == "tcp" || t.type == "udp" || t.type == "ws"
          || t.type == "grpc" || t.type == "tcpmux")
      && t.core == "xray")).map (·.id)

/-- `_restore_rathole_servers` / `_restore_backhaul_servers` /
`_restore_chisel_servers` (main.py lines 131-220): panel-local engines are
re-started for active tunnels of the matching core. -/
def restorePanelEngineTargets (db : List RTunnel) (core : String) : List String :=
  (db.filter (fun t => t.status == "active" && t.core == core)).map (·.id)

/-- `_restore_node_tunnels` (main.py lines 223-238): node-side `apply` RPCs
are re-sent for active tunnels with a bound node whose core is in the
literal list `["rathole", "backhaul", "chisel"]`. -/
def restoreNodeApplyTargets (db : List RTunnel) : List String :=
  (db.filter (fun t =>
    t.status == "active"
      && (t.core == "rathole" || t.core == "backhaul" || t.core == "chisel")
      && t.node_id != "")).map (·.id)

/-- An active panel-local gost tunnel as persisted by the create path. -/
def gostRow : RTunnel := ⟨"g1", "gost", "tcp", "active", ""⟩

/-- An active frp tunnel bound to node `n1` as persisted by the create path. -/
def frpRow : RTunnel := ⟨"f1", "frp", "tcp", "active", "n1"⟩

/-- An active rathole tunnel bound to node `n1`. -/
def ratholeRow : RTunnel := ⟨"r1", "rathole", "tcp", "active", "n1"⟩

end Smite

/-! ## Claim C2 -/

/-- C2 (code bug, evaluated at the failing input).  The claim (and the
restoration functions' own docstrings) say every persisted `status=active`
tunnel gets its panel-local engine or forward reconstructed and its
node-side apply re-sent.  On the store holding an active gost tunnel, an
active frp tunnel bound to a node, and an active rathole tunnel bound to a
node: `_restore_forwards` restores nothing — its filter requires
`tunnel.core == "xray"`, a core no create path ever writes (the create and
update paths gate gost forwarding on `core == "gost"`) — and
`_restore_node_tunnels` re-applies only the rathole tunnel, skipping frp
although the create path sends frp applies to the node.  The rathole,
backhaul and chisel panel-engine loops do cover their tunnels. -/
theorem restore_skips_gost_and_frp :
    Smite.restoreForwardTargets [Smite.gostRow, Smite.frpRow, Smite.ratholeRow] = []
      ∧ Smite.restoreNodeApplyTargets [Smite.gostRow, Smite.frpRow, Smite.ratholeRow] = ["r1"]
      ∧ Smite.restorePanelEngineTargets [Smite.gostRow, Smite.frpRow, Smite.ratholeRow] "rathole"
          = ["r1"]
      ∧ Smite.gostRow.status = "active" ∧ Smite.gostRow.core = "gost"
      ∧ Smite.frpRow.status = "active" ∧ Smite.frpRow.core = "frp"
      ∧ Smite.frpRow.node_id = "n1" := by
  refine ⟨rfl, rfl, rfl, rfl, rfl, rfl, rfl, rfl⟩

namespace Smite

/-! ## Panel-local gost forwarding on create
(tunnels.py lines 1006-1036 against app/gost_forwarder.py lines 20-70) -/

/-- The formal parameter names of `GostForwarder.start_forward`
(gost_forwarder.py line 20). -/
def startForwardParams : List String :=
  ["tunnel_id", "local_port", "node_address", "remote_port", "tunnel_type"]

/-- The keyword arguments the create path passes to
`gost_forwarder.start_forward` (tunnels.py lines 1019-1025). -/
def createCallKeywords : List String :=
  ["tunnel_id", "local_port", "forward_to", "tunnel_type", "use_ipv6"]

/-- A Python keyword call raises `TypeError` unless every keyword names a
formal parameter. -/
def keywordCallOk (params kwargs : List String) : Bool :=
  kwargs.all (fun k => params.contains k)

/-- The `gost` command line built by `GostForwarder.start_forward`
(gost_forwarder.py lines 41-70): `-L` carries the tunnel type, but for
`ws` and `grpc` the `-F` side is `tcp://`, and `tcpmux` is rejected. -/
def buildGostCmd (local_port : Nat) (node_address : String) (remote_port : Nat) :
    String → Option (List String)
  | "tcp" => some ["/usr/local/bin/gost",
      "-L=tcp://:" ++ toString local_port,
      "-F=tcp://" ++ node_address ++ ":" ++ toString remote_port]
  | "udp" => some ["/usr/local/bin/gost",
      "-L=udp://:" ++ toString local_port,
      "-F=udp://" ++ node_address ++ ":" ++ toString remote_port]
  | "ws" => some ["/usr/local/bin/gost",
      "-L=ws://:" ++ toString local_port,
      "-F=tcp://" ++ node_address ++ ":" ++ toString remote_port]
  | "grpc" => some ["/usr/local/bin/gost",
      "-L=grpc://:" ++ toString local_port,
      "-F=tcp://" ++ node_address ++ ":" ++ toString remote_port]
  | _ => none

/-- The tunnel status the create path persists for a panel-local gost
tunnel (lines 1006-1036): the loop body's `start_forward` call either
succeeds for every port — leaving the earlier `status="active"` in place —
or raises, and the `except` arm persists `status="error"` with a
`Gost forwarding error:` message. -/
def createGostLocalStatus (callOk : Bool) : String :=
  if callOk then "active" else "error"

end Smite

/-! ## Claim C7 -/

/-- C7 (code bug, evaluated at the failing input).  The claim says a
panel-local gost create starts one forward per port via
`-L=<type>://:<port> -F=<type>://<host>:<port>` and returns the tunnel with
`status=active`.  The create path calls `start_forward` with the keywords
`forward_to` and `use_ipv6`, neither of which is a parameter of
`GostForwarder.start_forward` — the call raises `TypeError` before any
process is spawned, the `except` arm catches it, and the tunnel is
persisted with `status="error"`.  Moreover even the forwarder itself would
build `-F=tcp://…`, not `-F=ws://…`, for the `ws` type. -/
theorem gost_local_create_call_mismatch :
    Smite.keywordCallOk Smite.startForwardParams Smite.createCallKeywords = false
      ∧ Smite.createGostLocalStatus
          (Smite.keywordCallOk Smite.startForwardParams Smite.createCallKeywords) = "error"
      ∧ Smite.buildGostCmd 8443 "127.0.0.1" 8443 "ws"
          = some ["/usr/local/bin/gost", "-L=ws://:8443", "-F=tcp://127.0.0.1:8443"]
      ∧ "forward_to" ∉ Smite.startForwardParams := by
  refine ⟨rfl, rfl, rfl, ?_⟩
  decide

namespace Smite

/-! ## GostForwarder process registry (app/gost_forwarder.py) -/

/-- The per-tunnel forward configuration recorded in `forward_configs`. -/
structure GCfg where
  local_port : Nat
  node_address : String
  remote_port : Nat
  tunnel_type : String
  deriving Repr, DecidableEq

/-- An observable process action of the forwarder. -/
inductive FwdAction where
  | terminate (pid : Nat)
  | spawn (pid : Nat)
  deriving Repr, DecidableEq

/-- The forwarder's state: the `active_forwards` dict (tunnel id → process)
and the `forward_configs` dict, both modelled as association lists whose
keys stay duplicate-free. -/
structure GostFwd where
  activeForwards : List (String × Nat)
  forwardConfigs : List (String × GCfg)
  deriving Repr, DecidableEq

/-- `tunnel_id in self.active_forwards` /
`self.active_forwards[tunnel_id]`. -/
def lookupFwd (st : GostFwd) (id : String) : Option Nat :=
  (st.activeForwards.find? (fun kv => kv.1 == id)).map (·.2)

/-- Embedding of `stop_forward` (gost_forwarder.py lines 128-145): when the
id is registered its process is terminated and both dict entries are
deleted; otherwise nothing is terminated (only the stray config entry, if
any, is dropped).  Either way the method returns normally. -/
def stopForward (st : GostFwd) (id : String) : GostFwd × List FwdAction :=
  match st.activeForwards.find? (fun kv => kv.1 == id) with
  | some kv =>
      ({ activeForwards := st.activeForwards.filter (fun p => p.1 != id)
         forwardConfigs := st.forwardConfigs.filter (fun p => p.1 != id) },
       [.terminate kv.2])
  | none =>
      ({ st with forwardConfigs := st.forwardConfigs.filter (fun p => p.1 != id) }, [])

/-- Embedding of `start_forward` (lines 20-126): an already-registered
forward for the same tunnel id is stopped FIRST (lines 36-38); then the
command is built (raising on unsupported types) and the process spawned
(`spawnPid = none` models a spawn that fails or dies inside the probe
window, which raises after the stop already happened); on success both
dicts gain the fresh entry.  The third component carries the raised error,
if any. -/
def startForward (st : GostFwd) (id : String) (cfg : GCfg) (spawnPid : Option Nat) :
    GostFwd × List FwdAction × Option String :=
  let s :=
    if (st.activeForwards.find? (fun kv => kv.1 == id)).isSome
    then stopForward st id else (st, [])
  match buildGostCmd cfg.local_port cfg.node_address cfg.remote_port cfg.tunnel_type with
  | none => (s.1, s.2, some ("Unsupported tunnel type: " ++ cfg.tunnel_type))
  | some _ =>
    match spawnPid with
    | none => (s.1, s.2, some "gost failed to start")
    | some pid =>
        ({ activeForwards := (id, pid) :: s.1.activeForwards
           forwardConfigs := (id, cfg) :: s.1.forwardConfigs },
         s.2 ++ [.spawn pid], none)

/-- `is_forwarding` (lines 147-152): false for an unregistered id,
otherwise the liveness of the registered process (`proc.poll() is None`,
abstracted by the oracle `alive`). -/
def isForwarding (st : GostFwd) (alive : Nat → Bool) (id : String) : Bool :=
  match lookupFwd st id with
  | none => false
  | some pid => alive pid

/-- The dict invariant: each tunnel id keys at most one entry. -/
def keysNodup (st : GostFwd) : Prop :=
  (st.activeForwards.map Prod.fst).Nodup

lemma count_le_one_of_nodup (l : List (String × Nat)) (id : String)
    (hd : (l.map Prod.fst).Nodup) :
    l.countP (fun p => p.1 == id) ≤ 1 := by
  induction l with
  | nil => simp
  | cons p rest ih =>
    rw [List.map_cons, List.nodup_cons] at hd
    rw [List.countP_cons]
    by_cases hp : (p.1 == id) = true
    · have h0 : rest.countP (fun q => q.1 == id) = 0 := by
        rw [List.countP_eq_zero]
        intro q hq hqid
        apply hd.1
        have : q.1 = id := by simpa using hqid
        have hpid : p.1 = id := by simpa using hp
        rw [List.mem_map]
        exact ⟨q, hq, by rw [this, hpid]⟩
      simp [hp, h0]
    · simp only [hp]
      simpa using ih hd.2

lemma not_mem_keys_filter (l : List (String × Nat)) (id : String) :
    id ∉ (l.filter (fun p => p.1 != id)).map Prod.fst := by
  intro hmem
  rw [List.mem_map] at hmem
  obtain ⟨p, hp, heq⟩ := hmem
  rw [List.mem_filter] at hp
  exact (by simpa using hp.2 : p.1 ≠ id) heq

lemma keys_filter_nodup (l : List (String × Nat)) (id : String)
    (hd : (l.map Prod.fst).Nodup) :
    ((l.filter (fun p => p.1 != id)).map Prod.fst).Nodup :=
  hd.sublist ((l.filter_sublist).map Prod.fst)

lemma stopForward_keysNodup (st : GostFwd) (id : String) (hd : keysNodup st) :
    keysNodup (stopForward st id).1 := by
  unfold stopForward
  cases st.activeForwards.find? (fun kv => kv.1 == id) with
  | none => exact hd
  | some kv => exact keys_filter_nodup _ id hd

lemma stopForward_not_mem (st : GostFwd) (id : String)
    (hsome : (st.activeForwards.find? (fun kv => kv.1 == id)).isSome) :
    id ∉ (stopForward st id).1.activeForwards.map Prod.fst := by
  unfold stopForward
  cases hfind : st.activeForwards.find? (fun kv => kv.1 == id) with
  | none => rw [hfind] at hsome; simp at hsome
  | some kv => exact not_mem_keys_filter _ id

lemma startForward_keysNodup (st : GostFwd) (id : String) (cfg : GCfg)
    (sp : Option Nat) (hd : keysNodup st) :
    keysNodup (startForward st id cfg sp).1 := by
  unfold startForward
  by_cases hsome : (st.activeForwards.find? (fun kv => kv.1 == id)).isSome
  · have h1 := stopForward_keysNodup st id hd
    have h2 := stopForward_not_mem st id hsome
    simp only [hsome, if_true]
    cases buildGostCmd cfg.local_port cfg.node_address cfg.remote_port cfg.tunnel_type with
    | none => exact h1
    | some c =>
      cases sp with
      | none => exact h1
      | some pid =>
        show ((id, pid) :: (stopForward st id).1.activeForwards).map Prod.fst |>.Nodup
        rw [List.map_cons, List.nodup_cons]
        exact ⟨h2, h1⟩
  · have hnone : st.activeForwards.find? (fun kv => kv.1 == id) = none := by
      cases h : st.activeForwards.find? (fun kv => kv.1 == id) with
      | none => rfl
      | some kv => rw [h] at hsome; simp at hsome
    have h2 : id ∉ st.activeForwards.map Prod.fst := by
      intro hmem
      rw [List.mem_map] at hmem
      obtain ⟨p, hp, heq⟩ := hmem
      have := List.find?_eq_none.mp hnone p hp
      simp [heq] at this
    simp only [hsome, if_false]
    cases buildGostCmd cfg.local_port cfg.node_address cfg.remote_port cfg.tunnel_type with
    | none => exact hd
    | some c =>
      cases sp with
      | none => exact hd
      | some pid =>
        show ((id, pid) :: st.activeForwards).map Prod.fst |>.Nodup
        rw [List.map_cons, List.nodup_cons]
        exact ⟨h2, hd⟩

end Smite

/-! ## Claim C10 -/

/-- C10.  The panel `GostForwarder` keeps at most one live forward per
tunnel id: the registry keys stay duplicate-free under `start_forward` and
`stop_forward` (so an id keys at most one process), `start_forward` on an
already-registered id terminates the existing process BEFORE spawning the
new one, and on an unregistered id `stop_forward` is a no-op that returns
normally while `is_forwarding` returns false. -/
theorem gost_forwarder_single_forward (st : Smite.GostFwd) (id : String)
    (cfg : Smite.GCfg) (sp : Option Nat) (alive : Nat → Bool) (pid newPid : Nat)
    (hd : Smite.keysNodup st) :
    st.activeForwards.countP (fun p => p.1 == id) ≤ 1
      ∧ Smite.keysNodup (Smite.startForward st id cfg sp).1
      ∧ Smite.keysNodup (Smite.stopForward st id).1
      ∧ (Smite.lookupFwd st id = some pid → cfg.tunnel_type = "tcp" →
          (Smite.startForward st id cfg (some newPid)).2.1
            = [Smite.FwdAction.terminate pid, Smite.FwdAction.spawn newPid])
      ∧ (Smite.lookupFwd st id = none →
          (Smite.stopForward st id).1.activeForwards = st.activeForwards
            ∧ (Smite.stopForward st id).2 = [])
      ∧ (Smite.lookupFwd st id = none → Smite.isForwarding st alive id = false) := by
  have hfind_of_lookup_none : Smite.lookupFwd st id = none →
      st.activeForwards.find? (fun kv => kv.1 == id) = none := by
    intro hl
    unfold Smite.lookupFwd at hl
    exact Option.map_eq_none'.mp hl
  refine ⟨Smite.count_le_one_of_nodup _ id hd,
    Smite.startForward_keysNodup st id cfg sp hd,
    Smite.stopForward_keysNodup st id hd, ?_, ?_, ?_⟩
  · intro hl htcp
    unfold Smite.lookupFwd at hl
    cases hfind : st.activeForwards.find? (fun kv => kv.1 == id) with
    | none => rw [hfind] at hl; simp at hl
    | some kv =>
      rw [hfind] at hl
      have hkv : kv.2 = pid := by simpa using hl
      unfold Smite.startForward
      have hsome : (st.activeForwards.find? (fun kv => kv.1 == id)).isSome := by
        rw [hfind]; rfl
      simp only [hsome, if_true]
      have hstop : (Smite.stopForward st id).2 = [Smite.FwdAction.terminate pid] := by
        unfold Smite.stopForward
        rw [hfind]
        simp [hkv]
      rw [htcp]
      show ((Smite.stopForward st id).2 ++ [Smite.FwdAction.spawn newPid])
          = [Smite.FwdAction.terminate pid, Smite.FwdAction.spawn newPid]
      rw [hstop]
      rfl
  · intro hl
    have hfind := hfind_of_lookup_none hl
    unfold Smite.stopForward
    rw [hfind]
    exact ⟨rfl, rfl⟩
  · intro hl
    unfold Smite.isForwarding
    rw [hl]

/-- C10 (witness): the theorem at the one-entry registry
`{t1 ↦ 41}`, tunnel id `t1`, a tcp config, and the spawn pid `42`. -/
theorem gost_forwarder_single_forward_witness :
    (Smite.GostFwd.mk [("t1", 41)] [("t1", ⟨9000, "127.0.0.1", 9000, "tcp"⟩)]).activeForwards.countP
        (fun p => p.1 == "t1") ≤ 1
      ∧ Smite.keysNodup (Smite.startForward
          (Smite.GostFwd.mk [("t1", 41)] [("t1", ⟨9000, "127.0.0.1", 9000, "tcp"⟩)])
          "t1" ⟨9000, "127.0.0.1", 9000, "tcp"⟩ (some 42)).1
      ∧ Smite.keysNodup (Smite.stopForward
          (Smite.GostFwd.mk [("t1", 41)] [("t1", ⟨9000, "127.0.0.1", 9000, "tcp"⟩)]) "t1").1
      ∧ (Smite.lookupFwd
            (Smite.GostFwd.mk [("t1", 41)] [("t1", ⟨9000, "127.0.0.1", 9000, "tcp"⟩)]) "t1"
            = some 41 →
          (⟨9000, "127.0.0.1", 9000, "tcp"⟩ : Smite.GCfg).tunnel_type = "tcp" →
          (Smite.startForward
              (Smite.GostFwd.mk [("t1", 41)] [("t1", ⟨9000, "127.0.0.1", 9000, "tcp"⟩)])
              "t1" ⟨9000, "127.0.0.1", 9000, "tcp"⟩ (some 42)).2.1
            = [Smite.FwdAction.terminate 41, Smite.FwdAction.spawn 42])
      ∧ (Smite.lookupFwd
            (Smite.GostFwd.mk [("t1", 41)] [("t1", ⟨9000, "127.0.0.1", 9000, "tcp"⟩)]) "t1"
            = none →
          (Smite.stopForward
              (Smite.GostFwd.mk [("t1", 41)] [("t1", ⟨9000, "127.0.0.1", 9000, "tcp"⟩)])
              "t1").1.activeForwards = [("t1", 41)]
            ∧ (Smite.stopForward
                (Smite.GostFwd.mk [("t1", 41)] [("t1", ⟨9000, "127.0.0.1", 9000, "tcp"⟩)])
                "t1").2 = [])
      ∧ (Smite.lookupFwd
            (Smite.GostFwd.mk [("t1", 41)] [("t1", ⟨9000, "127.0.0.1", 9000, "tcp"⟩)]) "t1"
            = none →
          Smite.isForwarding
              (Smite.GostFwd.mk [("t1", 41)] [("t1", ⟨9000, "127.0.0.1", 9000, "tcp"⟩)])
              (fun _ => true) "t1" = false) :=
  gost_forwarder_single_forward
    (Smite.GostFwd.mk [("t1", 41)] [("t1", ⟨9000, "127.0.0.1", 9000, "tcp"⟩)])
    "t1" ⟨9000, "127.0.0.1", 9000, "tcp"⟩ (some 42) (fun _ => true) 41 42
    (by simp [Smite.keysNodup])
